import Mathlib

/-!
Shallow embedding of the commit-and-prove Groth16 variant (main SNARK plus the
link subspace SNARK) and verification of its specification claims.

Modelling conventions:
* The algebra back-end (finite fields, curve groups, pairings) is external to
  the repository, so the embedding is parametric over a scalar field `F`,
  additive groups `G1`, `G2`, `GT` that are `F`-modules, a Miller-loop output
  type `ML`, and a `Backend` record of the pairing operations.  Affine and
  projective representations of a group element are identified.
* Rust panics (failed `assert!`, out-of-bounds indexing) are modelled as
  `none`; recoverable `SynthesisError` results are modelled with `Except`.
* Functions that consume a randomness source receive the sampled values as
  explicit arguments, in the order the source is consumed.
-/

namespace Groth16

/-- The `SynthesisError` variants relevant to the embedded code paths. -/
inductive SynthesisError where
  | AssignmentMissing
  | UnexpectedIdentity
  | MalformedVerifyingKey
deriving DecidableEq, Repr

instance instDecEqExcept {e a : Type} [DecidableEq e] [DecidableEq a] :
    DecidableEq (Except e a) := fun x y =>
  match x, y with
  | .ok u, .ok v =>
    if h : u = v then isTrue (by rw [h]) else isFalse fun hc => h (Except.ok.inj hc)
  | .error u, .error v =>
    if h : u = v then isTrue (by rw [h]) else isFalse fun hc => h (Except.error.inj hc)
  | .ok _, .error _ => isFalse fun hc => Except.noConfusion hc
  | .error _, .ok _ => isFalse fun hc => Except.noConfusion hc

/-- The pairing operations supplied by the external algebra back-end:
multi-Miller loop, final exponentiation (which may fail, returning `none`),
multi-pairing, and the full pairing. -/
structure Backend (G1 G2 GT ML : Type) where
  multiMillerLoop : List G1 → List G2 → ML
  finalExp : ML → Option GT
  multiPairing : List G1 → List G2 → GT
  pairing : G1 → G2 → GT

/-- A proof in the Groth16 SNARK: `a`, `c`, `d`, `link_pi` in `G1`, `b` in
`G2` (from `data_structures.rs`). -/
structure Proof (G1 G2 : Type) where
  a : G1
  b : G2
  c : G1
  d : G1
  link_pi : G1
deriving DecidableEq

/-- Public parameters of the link subspace SNARK (from `link/snark.rs`):
number of rows `l`, number of columns `t`, and one generator per group. -/
structure PP (G1 G2 : Type) where
  l : Nat
  t : Nat
  g1 : G1
  g2 : G2
deriving DecidableEq

/-- Evaluation key of the link subspace SNARK. -/
structure EK (G1 : Type) where
  p : List G1
deriving DecidableEq

/-- Verification key of the link subspace SNARK. -/
structure VK (G2 : Type) where
  c : List G2
  a : G2
deriving DecidableEq

/-- Column-major sparse matrix (from `link/utils.rs`): each column is a list
of `(value, row index)` pairs. -/
structure SparseMatrix (T : Type) where
  cols : List (List (T × Nat))
  nr : Nat
  nc : Nat
deriving DecidableEq

/-- `SparseMatrix::new`: `nc` empty columns. -/
def SparseMatrix.new (T : Type) (nr nc : Nat) : SparseMatrix T :=
  ⟨List.replicate nc [], nr, nc⟩

/-- `SparseMatrix::insert_val`: push `(v, r)` onto column `c`. -/
def SparseMatrix.insert_val {T : Type} (m : SparseMatrix T) (r c : Nat) (v : T) :
    SparseMatrix T :=
  { m with cols := m.cols.set c (m.cols.getD c [] ++ [(v, r)]) }

/-- `SparseMatrix::insert_row_slice`: insert the values `vs` at row `r`
starting from column `c_offset`. -/
def SparseMatrix.insert_row_slice {T : Type} (m : SparseMatrix T) (r c_offset : Nat)
    (vs : List T) : SparseMatrix T :=
  (vs.enum.foldl (fun acc ix => acc.insert_val r (c_offset + ix.1) ix.2) m)

/-- A verification key in the Groth16 SNARK (from `data_structures.rs`).
`gamma_abc_g1` is split into the public-instance part (`.fst`) and the
committed-witness part (`.snd`). -/
structure VerifyingKey (G1 G2 : Type) where
  alpha_g1 : G1
  beta_g2 : G2
  gamma_g2 : G2
  delta_g2 : G2
  gamma_abc_g1 : List G1 × List G1
  eta_gamma_inv_g1 : G1
  link_pp : PP G1 G2
  link_vk : VK G2
deriving DecidableEq

/-- Preprocessed verification key (from `data_structures.rs`); the prepared
`G2` elements are identified with plain `G2` elements. -/
structure PreparedVerifyingKey (G1 G2 GT : Type) where
  vk : VerifyingKey G1 G2
  alpha_g1_beta_g2 : GT
  gamma_g2_neg_pc : G2
  delta_g2_neg_pc : G2
deriving DecidableEq

/-- The common part of the proving key (from `data_structures.rs`). -/
structure ProvingKeyCommon (G1 G2 : Type) where
  beta_g1 : G1
  delta_g1 : G1
  eta_delta_inv_g1 : G1
  a_query : List G1
  b_g1_query : List G1
  b_g2_query : List G2
  h_query : List G1
  l_query : List G1
  link_ek : EK G1
deriving DecidableEq

/-- The proving key of the Groth16 zkSNARK. -/
structure ProvingKey (G1 G2 : Type) where
  vk : VerifyingKey G1 G2
  common : ProvingKeyCommon G1 G2
deriving DecidableEq

section Model

variable {F G1 G2 GT ML : Type}

/-- Variable-base multi-scalar multiplication `Σ scalars[i] • bases[i]`,
truncated to the shorter of the two lists (the semantics of arkworks
`msm_bigint` / `msm_unchecked`). -/
def msm [AddCommMonoid G1] [SMul F G1] (bases : List G1) (scalars : List F) : G1 :=
  ((bases.zip scalars).map fun x => x.2 • x.1).sum

/-- `inner_product` from `link/utils.rs`: MSM between a scalar vector and a
group-element vector. -/
def inner_product [AddCommMonoid G1] [SMul F G1] (a : List F) (b : List G1) : G1 :=
  msm b a

/-- `scale_vector` from `link/utils.rs`. -/
def scale_vector [Mul F] (a : F) (v : List F) : List F :=
  v.map fun x => a * x

/-- `multiples_of_g` from `link/utils.rs`: the vector of `v_i • g`. -/
def multiples_of_g [AddCommMonoid G1] [SMul F G1] (g : G1) (multiples : List F) :
    List G1 :=
  multiples.map fun x => x • g

/-- `SparseLinAlgebra::sparse_vector_matrix_mult` from `link/utils.rs`:
the inner product of every column of `m` with the vector `v`; indexing `v`
out of bounds (a Rust panic) yields `none`. -/
def sparse_vector_matrix_mult [AddCommMonoid G1] [SMul F G1] (v : List F)
    (m : SparseMatrix G1) : Option (List G1) :=
  m.cols.mapM fun w => (w.mapM fun gi => (v[gi.2]?).map fun s => s • gi.1).map List.sum

/-- The column-wise sparse matrix–trapdoor product `Σ_rows M[row,i]·k[row]`
as the specification states it: each `(value, row)` entry of the column
contributes `k[row] • value`, rows without an entry contribute zero. -/
def columnAtTrapdoor [AddCommMonoid G1] [SMul F G1] [Zero F] (k : List F)
    (col : List (G1 × Nat)) : G1 :=
  (col.map fun gi => k.getD gi.2 0 • gi.1).sum

/-- `PESubspaceSnark::keygen` from `link/snark.rs`.  The randomness source is
consumed for `pp.l` trapdoor scalars `k` and one blinding scalar `a`, which
are passed here explicitly; they appear in no component of the output. -/
def PESubspaceSnark.keygen [AddCommMonoid G1] [SMul F G1] [AddCommMonoid G2] [SMul F G2]
    [Mul F] (k : List F) (a : F) (pp : PP G1 G2) (m : SparseMatrix G1) :
    Option (EK G1 × VK G2) :=
  (sparse_vector_matrix_mult k m).map fun p =>
    (⟨p⟩, ⟨multiples_of_g pp.g2 (scale_vector a k), a • pp.g2⟩)

/-- `PESubspaceSnark::prove` from `link/snark.rs`; the failed
`assert!(pp.t >= w.len())` is modelled as `none`. -/
def PESubspaceSnark.prove [AddCommMonoid G1] [SMul F G1] (pp : PP G1 G2) (ek : EK G1)
    (w : List F) : Option G1 :=
  if w.length ≤ pp.t then some (inner_product w ek.p) else none

/-- `PESubspaceSnark::verify` from `link/snark.rs`; the two failed asserts on
the lengths are modelled as `none`. -/
def PESubspaceSnark.verify [AddCommGroup G2] [AddCommMonoid GT] [DecidableEq GT]
    (B : Backend G1 G2 GT ML) (pp : PP G1 G2) (vk : VK G2) (x : List G1) (pi : G1) :
    Option Bool :=
  if pp.l = x.length ∧ x.length ≤ vk.c.length then
    some (decide (B.multiPairing (x ++ [pi]) (vk.c.take x.length ++ [-vk.a]) = 0))
  else none

/-- `prepare_verifying_key` from `verifier.rs`. -/
def prepare_verifying_key [AddCommGroup G2] (B : Backend G1 G2 GT ML)
    (vk : VerifyingKey G1 G2) : PreparedVerifyingKey G1 G2 GT :=
  ⟨vk, B.pairing vk.alpha_g1 vk.beta_g2, -vk.gamma_g2, -vk.delta_g2⟩

/-- `Groth16::prepare_inputs` from `verifier.rs`: prepend `1` to the public
inputs, check the length against the instance part of `gamma_abc_g1`, and
return the fixed-base MSM. -/
def prepare_inputs [One F] [AddCommMonoid G1] [SMul F G1]
    (pvk : PreparedVerifyingKey G1 G2 GT) (public_inputs : List F) :
    Except SynthesisError G1 :=
  let inputs := (1 : F) :: public_inputs
  if inputs.length ≠ pvk.vk.gamma_abc_g1.fst.length then
    .error .MalformedVerifyingKey
  else
    .ok (msm pvk.vk.gamma_abc_g1.fst inputs)

/-- `Groth16::verify_proof_with_prepared_inputs` from `verifier.rs`.  A `none`
final exponentiation becomes `Err(UnexpectedIdentity)`; the link verification
is only reached (Rust's short-circuiting `&&`) when the pairing check passed,
and its failed asserts propagate as a panic (`none`). -/
def verify_proof_with_prepared_inputs [AddCommGroup G1] [AddCommGroup G2]
    [AddCommMonoid GT] [DecidableEq GT] (B : Backend G1 G2 GT ML)
    (pvk : PreparedVerifyingKey G1 G2 GT) (proof : Proof G1 G2) (link_d : List G1)
    (prepared_inputs : G1) : Option (Except SynthesisError Bool) :=
  let qap := B.multiMillerLoop
    [proof.a, proof.d + prepared_inputs, proof.c]
    [proof.b, pvk.gamma_g2_neg_pc, pvk.delta_g2_neg_pc]
  match B.finalExp qap with
  | none => some (.error .UnexpectedIdentity)
  | some test =>
    if test = pvk.alpha_g1_beta_g2 then
      match PESubspaceSnark.verify B pvk.vk.link_pp pvk.vk.link_vk
          (link_d ++ [proof.d]) proof.link_pi with
      | none => none
      | some b => some (.ok b)
    else some (.ok false)

/-- `Groth16::verify_proof` from `verifier.rs`: prepare the inputs, then
verify with prepared inputs. -/
def verify_proof [Field F] [AddCommGroup G1] [Module F G1] [AddCommGroup G2]
    [AddCommMonoid GT] [DecidableEq GT] (B : Backend G1 G2 GT ML)
    (pvk : PreparedVerifyingKey G1 G2 GT) (proof : Proof G1 G2) (link_d : List G1)
    (public_inputs : List F) : Option (Except SynthesisError Bool) :=
  match prepare_inputs pvk public_inputs with
  | .error e => some (.error e)
  | .ok prepared => verify_proof_with_prepared_inputs B pvk proof link_d prepared

end Model

section Prover

variable {F G1 G2 : Type}
variable [Field F] [DecidableEq F]
variable [AddCommGroup G1] [Module F G1]
variable [AddCommGroup G2] [Module F G2]

/-- `Groth16::calculate_coeff` from `prover.rs`:
`initial + query[0] + msm(query[1..], assignment) + vk_param`; indexing
`query[0]` on an empty query (a Rust panic) is `none`. -/
def calculate_coeff {G : Type} [AddCommGroup G] [Module F G] (initial : G)
    (query : List G) (vk_param : G) (assignment : List F) : Option G :=
  match query with
  | [] => none
  | el :: rest => some (initial + el + msm rest assignment + vk_param)

/-- `Groth16::create_proof_with_assignment` from `prover.rs`.  The group-1 `B`
is computed by the full formula only when `r ≠ 0` and is the identity
otherwise; the final link proof may panic (`none`) on a length violation. -/
def create_proof_with_assignment (pk : ProvingKey G1 G2) (r s v : F)
    (link_v h_vec input_assignment committed_assignment aux_assignment : List F) :
    Option (Proof G1 G2) :=
  let vk := pk.vk
  let ck := pk.common
  let h_acc := msm ck.h_query h_vec
  let l_aux_acc := msm ck.l_query aux_assignment
  let gamma_abc_inputs_acc := msm vk.gamma_abc_g1.snd committed_assignment
  let r_s_delta_g1 := (r * s) • ck.delta_g1
  let assignment := input_assignment ++ committed_assignment ++ aux_assignment
  let r_g1 := r • ck.delta_g1
  match calculate_coeff r_g1 ck.a_query vk.alpha_g1 assignment with
  | none => none
  | some g_a =>
    let s_g_a := s • g_a
    match (if r ≠ 0 then
        calculate_coeff (s • ck.delta_g1) ck.b_g1_query ck.beta_g1 assignment
      else some 0) with
    | none => none
    | some g1_b =>
      match calculate_coeff (s • vk.delta_g2) ck.b_g2_query vk.beta_g2 assignment with
      | none => none
      | some g2_b =>
        let r_g1_b := r • g1_b
        let g_c := s_g_a + r_g1_b - r_s_delta_g1 + l_aux_acc + h_acc
          - v • ck.eta_delta_inv_g1
        let g_d := gamma_abc_inputs_acc + v • vk.eta_gamma_inv_g1
        let ss_snark_witness := committed_assignment ++ link_v ++ [v]
        match PESubspaceSnark.prove vk.link_pp ck.link_ek ss_snark_witness with
        | none => none
        | some link_pi => some ⟨g_a, g2_b, g_c, g_d, link_pi⟩

/-- The variant of `create_proof_with_assignment` described by the spec's
words for §4.3: the group-1 `B` is always computed by the full formula
(`s·δ·G` initial value, `b_g1_query`, `β·G`), with no `r = 0` shortcut.
Used to compare the code's `r = 0` performance path against it. -/
def create_proof_with_assignment_fullB (pk : ProvingKey G1 G2) (r s v : F)
    (link_v h_vec input_assignment committed_assignment aux_assignment : List F) :
    Option (Proof G1 G2) :=
  let vk := pk.vk
  let ck := pk.common
  let h_acc := msm ck.h_query h_vec
  let l_aux_acc := msm ck.l_query aux_assignment
  let gamma_abc_inputs_acc := msm vk.gamma_abc_g1.snd committed_assignment
  let r_s_delta_g1 := (r * s) • ck.delta_g1
  let assignment := input_assignment ++ committed_assignment ++ aux_assignment
  let r_g1 := r • ck.delta_g1
  match calculate_coeff r_g1 ck.a_query vk.alpha_g1 assignment with
  | none => none
  | some g_a =>
    let s_g_a := s • g_a
    match calculate_coeff (s • ck.delta_g1) ck.b_g1_query ck.beta_g1 assignment with
    | none => none
    | some g1_b =>
      match calculate_coeff (s • vk.delta_g2) ck.b_g2_query vk.beta_g2 assignment with
      | none => none
      | some g2_b =>
        let r_g1_b := r • g1_b
        let g_c := s_g_a + r_g1_b - r_s_delta_g1 + l_aux_acc + h_acc
          - v • ck.eta_delta_inv_g1
        let g_d := gamma_abc_inputs_acc + v • vk.eta_gamma_inv_g1
        let ss_snark_witness := committed_assignment ++ link_v ++ [v]
        match PESubspaceSnark.prove vk.link_pp ck.link_ek ss_snark_witness with
        | none => none
        | some link_pi => some ⟨g_a, g2_b, g_c, g_d, link_pi⟩

/-- The data delivered by circuit synthesis plus the R1CS-to-QAP witness map
inside `create_proof_with_reduction` (`prover.rs`).
Modelled from the spec: the reduction oracle of §6 (`r1cs_to_qap.rs` and the
constraint system are not under `src/`) returns the quotient coefficients `h`
and the instance / committed / private assignments; `instance_assignment`
carries the constant-one wire first, as the prover slices it off with
`[1..]`. -/
structure ProverReduction (F : Type) where
  h : List F
  instance_assignment : List F
  committed_assignment : List F
  witness_assignment : List F

/-- `Groth16::create_proof_with_reduction` from `prover.rs`: run the reduction
oracle, then build the proof from the assignments (dropping the leading
constant-one instance wire). -/
def create_proof_with_reduction (pk : ProvingKey G1 G2) (r s v : F)
    (link_v : List F) (red : ProverReduction F) : Option (Proof G1 G2) :=
  create_proof_with_assignment pk r s v link_v red.h
    (red.instance_assignment.drop 1) red.committed_assignment red.witness_assignment

/-- `Groth16::create_random_proof_with_reduction` from `prover.rs`.  The
randomness source is consumed for exactly the two scalars `r` and `s`, passed
here explicitly; `v` is fixed to zero and `link_v` to `pp.l - 1` zeros, and
the returned list of external commitment openings is empty. -/
def create_random_proof_with_reduction (pk : ProvingKey G1 G2) (r s : F)
    (red : ProverReduction F) : Option (Proof G1 G2 × List G1) :=
  let v : F := 0
  let link_v : List F := List.replicate (pk.vk.link_pp.l - 1) 0
  (create_proof_with_reduction pk r s v link_v red).map fun x => (x, [])

end Prover

section Generator

variable {F G1 G2 : Type}
variable [Field F] [DecidableEq F]
variable [AddCommGroup G1] [Module F G1]
variable [AddCommGroup G2] [Module F G2]

/-- The data produced inside `generate_parameters_with_qap` (`generator.rs`)
by circuit synthesis and `QAP::instance_map_with_evaluation`.
Modelled from the spec: the reduction oracle of §6 (`r1cs_to_qap.rs` and the
constraint system are not under `src/`) returns per-wire polynomial
evaluations `a`, `b`, `c` at a random point `t`, the vanishing-polynomial
evaluation `zt`, the variable counts, and (via `h_query_scalars`) the H-query
scalar sequence. -/
structure QapOracle (F : Type) where
  a : List F
  b : List F
  c : List F
  t : F
  zt : F
  qap_num_variables : Nat
  m_raw : Nat
  hQueryScalars : Nat → F → F → F → List F

/-- The list of link-matrix row descriptors built by the `pedersen_gens` loop
in `generator.rs`: row `i` holds its bases at a contiguous column range
starting at the running offset, plus its blinding base at column
`num_committed_variables + i`. -/
def linkRowDescriptors (num_committed_variables : Nat)
    (pedersen_gens : List (List G1 × G1)) (c i : Nat) :
    List (Nat × List G1 × Nat × G1) :=
  match pedersen_gens with
  | [] => []
  | (g, r) :: rest =>
    (c, g, num_committed_variables + i, r) ::
      linkRowDescriptors num_committed_variables rest (c + g.length) (i + 1)

/-- Insert the row descriptors `(c_offset, bases, special column, special
base)` into a sparse matrix, one row per list position starting at row `i`.
Modelled from the spec: the conversion between the descriptor form built in
`generator.rs` and the column-major `SparseMatrix` consumed by
`PESubspaceSnark::keygen` is not under `src/`; per §4.2 each base block
occupies a contiguous column range tied to one row, plus the row's blinding
base at its dedicated column. -/
def insertRows (m : SparseMatrix G1) (i : Nat)
    (rows : List (Nat × List G1 × Nat × G1)) : SparseMatrix G1 :=
  match rows with
  | [] => m
  | (c_off, g, sc, sb) :: rest =>
    insertRows ((m.insert_row_slice i c_off g).insert_val i sc sb) (i + 1) rest

/-- Assemble the link matrix from the row descriptors. -/
def rowsToMatrix (l t : Nat) (rows : List (Nat × List G1 × Nat × G1)) :
    SparseMatrix G1 :=
  insertRows (SparseMatrix.new G1 l t) 0 rows

/-- `Groth16::generate_parameters_with_qap` from `generator.rs`.  The
randomness source is consumed (after the QAP oracle) for the two link-SNARK
generators and, inside `PESubspaceSnark::keygen`, for the trapdoor vector
`k_sample` and blinding scalar `a_sample`; all are passed explicitly.
A zero `gamma` or `delta` yields `Err(UnexpectedIdentity)`; out-of-range
slicing of the wire evaluations and the failed
`assert_eq!(num_committed_variables, c)` are panics (`none`). -/
def generate_parameters_with_qap (qap : QapOracle F)
    (num_instance_variables num_committed_variables : Nat)
    (pedersen_gens : List (List G1 × G1))
    (alpha beta gamma delta eta : F)
    (g1_generator : G1) (g2_generator : G2)
    (link_g1_sample : G1) (link_g2_sample : G2)
    (k_sample : List F) (a_sample : F) :
    Option (Except SynthesisError (ProvingKey G1 G2)) :=
  if gamma = 0 then some (.error .UnexpectedIdentity)
  else if delta = 0 then some (.error .UnexpectedIdentity)
  else
    let gamma_inverse := gamma⁻¹
    let delta_inverse := delta⁻¹
    let n := num_instance_variables + num_committed_variables
    if n ≤ qap.a.length ∧ n ≤ qap.b.length ∧ n ≤ qap.c.length then
      let gamma_abc := (((qap.a.take n).zip (qap.b.take n)).zip (qap.c.take n)).map
        fun x => (beta * x.1.1 + alpha * x.1.2 + x.2) * gamma_inverse
      let lScalars := (((qap.a.drop n).zip (qap.b.drop n)).zip (qap.c.drop n)).map
        fun x => (beta * x.1.1 + alpha * x.1.2 + x.2) * delta_inverse
      let b_g2_query := qap.b.map fun x => x • g2_generator
      let alpha_g1 := alpha • g1_generator
      let beta_g1 := beta • g1_generator
      let beta_g2 := beta • g2_generator
      let delta_g1 := delta • g1_generator
      let delta_g2 := delta • g2_generator
      let a_query := qap.a.map fun x => x • g1_generator
      let b_g1_query := qap.b.map fun x => x • g1_generator
      let h_query := (qap.hQueryScalars (qap.m_raw - 1) qap.t qap.zt delta_inverse).map
        fun x => x • g1_generator
      let l_query := lScalars.map fun x => x • g1_generator
      let gamma_g2 := gamma • g2_generator
      let gamma_abc_g1_full := gamma_abc.map fun x => x • g1_generator
      let gamma_abc_g1_1 := gamma_abc_g1_full.take num_instance_variables
      let gamma_abc_g1_2 := gamma_abc_g1_full.drop num_instance_variables
      let eta_gamma_inv_g1 := (eta * gamma_inverse) • g1_generator
      let eta_delta_inv_g1 := (eta * delta_inverse) • g1_generator
      let link_rows := 1 + pedersen_gens.length
      let link_cols := num_committed_variables + link_rows
      let link_pp : PP G1 G2 := ⟨link_rows, link_cols, link_g1_sample, link_g2_sample⟩
      if (pedersen_gens.map fun x => x.1.length).sum = num_committed_variables then
        let link_m := linkRowDescriptors num_committed_variables pedersen_gens 0 0 ++
          [(0, gamma_abc_g1_2, link_cols - 1, eta_gamma_inv_g1)]
        match PESubspaceSnark.keygen k_sample a_sample link_pp
            (rowsToMatrix link_rows link_cols link_m) with
        | none => none
        | some (link_ek, link_vk) =>
          some (.ok
            ⟨⟨alpha_g1, beta_g2, gamma_g2, delta_g2, (gamma_abc_g1_1, gamma_abc_g1_2),
              eta_gamma_inv_g1, link_pp, link_vk⟩,
             ⟨beta_g1, delta_g1, eta_delta_inv_g1, a_query, b_g1_query, b_g2_query,
              h_query, l_query, link_ek⟩⟩)
      else none
    else none

end Generator

/-! A concrete instantiation over `ZMod 5` (every group is the scalar field
acting on itself and the pairing is field multiplication), used to evaluate
the embedded functions on explicit inputs. -/

instance : Fact (Nat.Prime 5) := ⟨by norm_num⟩

/-- The scalar field, groups, and pairing-output type of the concrete test
instantiation, all `ZMod 5`. -/
abbrev Z5 := ZMod 5

/-- A concrete back-end over `Z5`: the Miller loop and the multi-pairing are
the sum of pairwise products, final exponentiation is the identity, the
pairing is multiplication. -/
def testBackend : Backend Z5 Z5 Z5 Z5 :=
  ⟨fun a b => ((a.zip b).map fun x => x.1 * x.2).sum,
   fun x => some x,
   fun a b => ((a.zip b).map fun x => x.1 * x.2).sum,
   fun a b => a * b⟩

/-- A back-end identical to `testBackend` except that final exponentiation
always fails (as the external interface permits, returning `None`). -/
def stuckExpBackend : Backend Z5 Z5 Z5 Z5 :=
  ⟨fun a b => ((a.zip b).map fun x => x.1 * x.2).sum,
   fun _ => none,
   fun a b => ((a.zip b).map fun x => x.1 * x.2).sum,
   fun a b => a * b⟩

/-- A concrete verifying key over `Z5` with one instance wire and one
committed wire. -/
def vk5 : VerifyingKey Z5 Z5 :=
  ⟨1, 1, 1, 1, ([2], [3]), 1, ⟨1, 2, 1, 1⟩, ⟨[1], 1⟩⟩

/-- The prepared form of `vk5` under `testBackend`. -/
def pvk5 : PreparedVerifyingKey Z5 Z5 Z5 :=
  prepare_verifying_key testBackend vk5

/-- A concrete proof object over `Z5`. -/
def pf5 : Proof Z5 Z5 :=
  ⟨1, 1, 1, 1, 1⟩

/-- A concrete proving key over `Z5` extending `vk5`. -/
def pk5 : ProvingKey Z5 Z5 :=
  ⟨vk5, ⟨1, 1, 1, [1], [1], [1], [], [], ⟨[1, 1]⟩⟩⟩

/-- Concrete link-SNARK public parameters over `Z5` with two rows. -/
def pp52 : PP Z5 Z5 :=
  ⟨2, 2, 1, 1⟩

/-- A concrete 2×2 sparse matrix over `Z5`. -/
def m5 : SparseMatrix Z5 :=
  ⟨[[(1, 0)], [(1, 1), (2, 0)]], 2, 2⟩

/-- A concrete QAP-oracle output over `Z5` with a single wire. -/
def qap5 : QapOracle Z5 :=
  ⟨[1], [1], [1], 1, 1, 1, 1, fun _ _ _ _ => []⟩

/-! Helper lemmas shared by the claim theorems. -/

section Helpers

variable {α β : Type}

theorem mapM_eq_some_of_forall (f : α → Option β) (g : α → β) :
    ∀ l : List α, (∀ x ∈ l, f x = some (g x)) → l.mapM f = some (l.map g) := by
  intro l h
  induction l with
  | nil => rfl
  | cons a l ih =>
    rw [List.mapM_cons, h a (List.mem_cons_self a l),
      ih fun x hx => h x (List.mem_cons_of_mem a hx)]
    rfl

theorem getElem?_zip_eq (l : List α) :
    ∀ (m : List β) (i : Nat),
      (l.zip m)[i]? = (l[i]?).bind fun x => (m[i]?).map fun y => (x, y) := by
  induction l with
  | nil => intro m i; simp
  | cons a l ih =>
    intro m i
    cases m with
    | nil => simp
    | cons b m =>
      cases i with
      | zero => simp
      | succ j => simpa using ih m j

theorem sparse_vector_matrix_mult_eq_some {F G1 : Type} [Field F] [AddCommGroup G1]
    [Module F G1] (k : List F) (m : SparseMatrix G1)
    (hrows : ∀ col ∈ m.cols, ∀ e ∈ col, e.2 < k.length) :
    sparse_vector_matrix_mult k m = some (m.cols.map (columnAtTrapdoor k)) := by
  unfold sparse_vector_matrix_mult
  apply mapM_eq_some_of_forall _ (columnAtTrapdoor k)
  intro col hcol
  have hinner : col.mapM (fun gi => (k[gi.2]?).map fun s => s • gi.1) =
      some (col.map fun gi => k.getD gi.2 0 • gi.1) := by
    apply mapM_eq_some_of_forall
    intro gi hgi
    have hlt : gi.2 < k.length := hrows col hcol gi hgi
    rw [List.getElem?_eq_getElem hlt, List.getD_eq_getElem?_getD,
      List.getElem?_eq_getElem hlt]
    rfl
  rw [hinner]
  rfl

theorem insert_val_row_bound {T : Type} (m : SparseMatrix T) (N r c : Nat) (v : T)
    (hm : ∀ col ∈ m.cols, ∀ e ∈ col, e.2 < N) (hr : r < N) :
    ∀ col ∈ (m.insert_val r c v).cols, ∀ e ∈ col, e.2 < N := by
  intro col hcol e he
  rcases List.mem_or_eq_of_mem_set hcol with h | rfl
  · exact hm col h e he
  · rcases List.mem_append.mp he with h1 | h2
    · by_cases hcl : c < m.cols.length
      · have hg : m.cols.getD c [] = m.cols[c] := by
          rw [List.getD_eq_getElem?_getD, List.getElem?_eq_getElem hcl]
          rfl
        rw [hg] at h1
        exact hm _ (List.getElem_mem hcl) e h1
      · rw [List.getD_eq_default _ _ (Nat.le_of_not_lt hcl)] at h1
        exact absurd h1 (List.not_mem_nil e)
    · rw [List.mem_singleton.mp h2]
      exact hr

theorem foldl_insert_val_bound {T : Type} (N r : Nat) (hr : r < N) (c0 : Nat) :
    ∀ (L : List (Nat × T)) (m : SparseMatrix T),
      (∀ col ∈ m.cols, ∀ e ∈ col, e.2 < N) →
      ∀ col ∈ (L.foldl (fun acc ix => acc.insert_val r (c0 + ix.1) ix.2) m).cols,
        ∀ e ∈ col, e.2 < N := by
  intro L
  induction L with
  | nil => intro m hm; exact hm
  | cons x L ih =>
    intro m hm
    exact ih _ (insert_val_row_bound m N r (c0 + x.1) x.2 hm hr)

theorem insert_row_slice_row_bound {T : Type} (m : SparseMatrix T) (N r c0 : Nat)
    (vs : List T) (hm : ∀ col ∈ m.cols, ∀ e ∈ col, e.2 < N) (hr : r < N) :
    ∀ col ∈ (m.insert_row_slice r c0 vs).cols, ∀ e ∈ col, e.2 < N := by
  unfold SparseMatrix.insert_row_slice
  exact foldl_insert_val_bound N r hr c0 vs.enum m hm

theorem new_row_bound {T : Type} (l t N : Nat) :
    ∀ col ∈ (SparseMatrix.new T l t).cols, ∀ e ∈ col, e.2 < N := by
  intro col hcol e he
  rw [List.eq_of_mem_replicate hcol] at he
  exact absurd he (List.not_mem_nil e)

theorem insertRows_row_bound {G1 : Type} (N : Nat) :
    ∀ (rows : List (Nat × List G1 × Nat × G1)) (m : SparseMatrix G1) (i : Nat),
      (∀ col ∈ m.cols, ∀ e ∈ col, e.2 < N) → i + rows.length ≤ N →
      ∀ col ∈ (insertRows m i rows).cols, ∀ e ∈ col, e.2 < N := by
  intro rows
  induction rows with
  | nil => intro m i hm _; exact hm
  | cons x rows ih =>
    intro m i hm hle
    rcases x with ⟨c_off, g, sc, sb⟩
    have hi : i < N := by
      simp only [List.length_cons] at hle
      omega
    refine ih _ (i + 1) ?_ ?_
    · exact insert_val_row_bound _ N i sc sb
        (insert_row_slice_row_bound m N i c_off g hm hi) hi
    · simp only [List.length_cons] at hle
      omega

theorem linkRowDescriptors_length {G1 : Type} (ncomm : Nat) :
    ∀ (gens : List (List G1 × G1)) (c i : Nat),
      (linkRowDescriptors ncomm gens c i).length = gens.length := by
  intro gens
  induction gens with
  | nil => intro c i; rfl
  | cons x gens ih =>
    intro c i
    rcases x with ⟨g, r⟩
    simp only [linkRowDescriptors, List.length_cons, ih]

theorem generate_parameters_success {F G1 G2 : Type} [Field F] [DecidableEq F]
    [AddCommGroup G1] [Module F G1] [AddCommGroup G2] [Module F G2]
    (qap : QapOracle F) (num_instance_variables num_committed_variables : Nat)
    (pedersen_gens : List (List G1 × G1)) (alpha beta gamma delta eta : F)
    (g1_generator : G1) (g2_generator : G2) (link_g1_sample : G1)
    (link_g2_sample : G2) (k_sample : List F) (a_sample : F)
    (hγ : gamma ≠ 0) (hδ : delta ≠ 0)
    (ha : num_instance_variables + num_committed_variables ≤ qap.a.length)
    (hb : num_instance_variables + num_committed_variables ≤ qap.b.length)
    (hc : num_instance_variables + num_committed_variables ≤ qap.c.length)
    (hsum : (pedersen_gens.map fun x => x.1.length).sum = num_committed_variables)
    (hk : k_sample.length = 1 + pedersen_gens.length) :
    ∃ pk, generate_parameters_with_qap qap num_instance_variables
        num_committed_variables pedersen_gens alpha beta gamma delta eta
        g1_generator g2_generator link_g1_sample link_g2_sample k_sample a_sample =
        some (.ok pk) ∧
      pk.vk.gamma_abc_g1 =
        ((((((qap.a.take (num_instance_variables + num_committed_variables)).zip
              (qap.b.take (num_instance_variables + num_committed_variables))).zip
              (qap.c.take (num_instance_variables + num_committed_variables))).map
            fun x => (beta * x.1.1 + alpha * x.1.2 + x.2) * gamma⁻¹).map
            fun x => x • g1_generator).take num_instance_variables,
         (((((qap.a.take (num_instance_variables + num_committed_variables)).zip
              (qap.b.take (num_instance_variables + num_committed_variables))).zip
              (qap.c.take (num_instance_variables + num_committed_variables))).map
            fun x => (beta * x.1.1 + alpha * x.1.2 + x.2) * gamma⁻¹).map
            fun x => x • g1_generator).drop num_instance_variables) ∧
      pk.vk.link_pp = ⟨1 + pedersen_gens.length,
        num_committed_variables + (1 + pedersen_gens.length),
        link_g1_sample, link_g2_sample⟩ ∧
      pk.vk.link_vk = ⟨k_sample.map fun ki => (a_sample * ki) • link_g2_sample,
        a_sample • link_g2_sample⟩ := by
  unfold generate_parameters_with_qap
  rw [if_neg hγ, if_neg hδ, if_pos ⟨ha, hb, hc⟩]
  dsimp only
  rw [if_pos hsum]
  have hbound : ∀ col ∈ (rowsToMatrix (1 + pedersen_gens.length)
      (num_committed_variables + (1 + pedersen_gens.length))
      (linkRowDescriptors num_committed_variables pedersen_gens 0 0 ++
        [(0, (((((qap.a.take (num_instance_variables + num_committed_variables)).zip
              (qap.b.take (num_instance_variables + num_committed_variables))).zip
              (qap.c.take (num_instance_variables + num_committed_variables))).map
            fun x => (beta * x.1.1 + alpha * x.1.2 + x.2) * gamma⁻¹).map
            fun x => x • g1_generator).drop num_instance_variables,
          num_committed_variables + (1 + pedersen_gens.length) - 1,
          (eta * gamma⁻¹) • g1_generator)])).cols,
      ∀ e ∈ col, e.2 < k_sample.length := by
    apply insertRows_row_bound _ _ _ 0 (new_row_bound _ _ _)
    simp only [List.length_append, List.length_cons, List.length_nil,
      linkRowDescriptors_length, Nat.zero_add, hk]
    omega
  unfold rowsToMatrix at hbound
  unfold PESubspaceSnark.keygen rowsToMatrix
  rw [sparse_vector_matrix_mult_eq_some _ _ hbound]
  dsimp only [Option.map_some']
  refine ⟨_, rfl, rfl, rfl, ?_⟩
  dsimp only
  unfold multiples_of_g scale_vector
  rw [List.map_map]
  rfl

end Helpers

/-! The claim theorems. -/

section Claims

variable {F G1 G2 GT ML : Type}
variable [Field F] [DecidableEq F]
variable [AddCommGroup G1] [Module F G1]
variable [AddCommGroup G2] [Module F G2]
variable [AddCommMonoid GT] [DecidableEq GT]

/-- C3: for every `pp`, `vk`, target vector `y` with `y.length = pp.l` and
`vk.c.length ≥ y.length`, and proof `pi`, link-SNARK `verify` returns a
boolean (never a panic), and returns `true` iff the multi-pairing product of
`y ++ [pi]` against `vk.c[0..y.length] ++ [-vk.a]` is the target-group
identity. -/
theorem c3_link_verify_boolean (B : Backend G1 G2 GT ML) (pp : PP G1 G2)
    (vk : VK G2) (y : List G1) (pi : G1)
    (h1 : y.length = pp.l) (h2 : y.length ≤ vk.c.length) :
    ∃ b, PESubspaceSnark.verify B pp vk y pi = some b ∧
      (b = true ↔
        B.multiPairing (y ++ [pi]) (vk.c.take y.length ++ [-vk.a]) = 0) := by
  refine ⟨decide (B.multiPairing (y ++ [pi]) (vk.c.take y.length ++ [-vk.a]) = 0),
    ?_, decide_eq_true_iff⟩
  unfold PESubspaceSnark.verify
  rw [if_pos ⟨h1.symm, h2⟩]

/-- C9: the convenience prover entry point consumes exactly the scalars `r`
and `s` from the randomness source, fixes `v = 0` and the `pp.l - 1`
per-commitment blinding scalars to `0`, delegates to
`create_proof_with_reduction`, and returns an empty list of external
commitment openings. -/
theorem c9_random_proof_delegation (pk : ProvingKey G1 G2) (r s : F)
    (red : ProverReduction F) (pf : Proof G1 G2) (d : List G1) :
    create_random_proof_with_reduction pk r s red = some (pf, d) ↔
      (create_proof_with_reduction pk r s 0
        (List.replicate (pk.vk.link_pp.l - 1) 0) red = some pf ∧ d = []) := by
  unfold create_random_proof_with_reduction
  show (create_proof_with_reduction pk r s 0
      (List.replicate (pk.vk.link_pp.l - 1) 0) red).map (fun x => (x, [])) =
      some (pf, d) ↔ _
  constructor
  · intro hmap
    obtain ⟨q, hq, hqe⟩ := Option.map_eq_some'.mp hmap
    obtain ⟨rfl, rfl⟩ := Prod.mk.injEq .. |>.mp hqe
    exact ⟨hq, rfl⟩
  · rintro ⟨hq, rfl⟩
    rw [hq]
    rfl

/-- C8: with `r = 0`, skipping the group-1 `B` computation is purely a
performance path: the proof produced by `create_proof_with_assignment` (which
sets the group-1 `B` to the identity) coincides, in all five components, with
the proof produced by the variant that always computes the group-1 `B` by the
full formula, provided that formula is defined (`b_g1_query` nonempty). -/
theorem c8_zero_r_performance_path (pk : ProvingKey G1 G2) (r s v : F)
    (link_v h_vec input_assignment committed_assignment aux_assignment : List F)
    (hr : r = 0) (hq : pk.common.b_g1_query ≠ []) :
    create_proof_with_assignment pk r s v link_v h_vec input_assignment
        committed_assignment aux_assignment =
      create_proof_with_assignment_fullB pk r s v link_v h_vec input_assignment
        committed_assignment aux_assignment := by
  subst hr
  obtain ⟨el, rest, hql⟩ := List.exists_cons_of_ne_nil hq
  unfold create_proof_with_assignment create_proof_with_assignment_fullB
  simp only [hql, calculate_coeff, ne_eq, not_true_eq_false, if_false, zero_smul,
    zero_mul]

/-- C2: every proof built by `create_proof_with_assignment` satisfies
`C = s·A + r·B_g1 − r·s·δ·G + L_query·aux + H_query·h − v·(η·δ⁻¹·G)` (with
`B_g1` the full group-1 `B` value, whose formula is assumed defined),
`D = gamma_abc_suffix·committed + v·(η·γ⁻¹·G)`, and `link_pi` the link-SNARK
proof over the concatenated witness `[committed, link_v, v]`. -/
theorem c2_proof_components (pk : ProvingKey G1 G2) (r s v : F)
    (link_v h_vec input_assignment committed_assignment aux_assignment : List F)
    (pf : Proof G1 G2) (gb : G1)
    (hpf : create_proof_with_assignment pk r s v link_v h_vec input_assignment
      committed_assignment aux_assignment = some pf)
    (hgb : calculate_coeff (s • pk.common.delta_g1) pk.common.b_g1_query
      pk.common.beta_g1 (input_assignment ++ committed_assignment ++ aux_assignment) =
      some gb) :
    pf.c = s • pf.a + r • gb - (r * s) • pk.common.delta_g1
        + msm pk.common.l_query aux_assignment + msm pk.common.h_query h_vec
        - v • pk.common.eta_delta_inv_g1
    ∧ pf.d = msm pk.vk.gamma_abc_g1.snd committed_assignment
        + v • pk.vk.eta_gamma_inv_g1
    ∧ PESubspaceSnark.prove pk.vk.link_pp pk.common.link_ek
        (committed_assignment ++ link_v ++ [v]) = some pf.link_pi := by
  simp only [create_proof_with_assignment] at hpf
  split at hpf
  · exact Option.noConfusion hpf
  next g_a hga =>
    split at hpf
    · exact Option.noConfusion hpf
    next g1_b hg1b =>
      split at hpf
      · exact Option.noConfusion hpf
      next g2_b hg2b =>
        split at hpf
        · exact Option.noConfusion hpf
        next link_pi hlp =>
          cases hpf
          refine ⟨?_, rfl, hlp⟩
          have hrb : r • g1_b = r • gb := by
            split at hg1b
            · rw [hgb] at hg1b
              cases hg1b
              rfl
            next hc =>
              cases hg1b
              rw [not_not.mp hc, zero_smul, zero_smul]
          show s • g_a + r • g1_b - _ + _ + _ - _ = _
          rw [hrb]

/-- C1: for inputs of the length accepted by `prepare_inputs`, a link-SNARK
target of the shape its asserts accept, and a Miller loop whose final
exponentiation succeeds with value `t`, `verify_proof` returns `Ok b` where
`b = true` iff both (a) the finalized 3-pair Miller loop of
`{A, D + gamma_abc_prefix·[1,inputs], C}` against `{B, −γH, −δH}` equals the
cached `e(αG,βH)` and (b) the link-SNARK multi-pairing check on
`[link_d, D]` passes. -/
theorem c1_verify_proof_characterization (B : Backend G1 G2 GT ML)
    (pvk : PreparedVerifyingKey G1 G2 GT) (pf : Proof G1 G2) (link_d : List G1)
    (public_inputs : List F) (t : GT)
    (hlen : public_inputs.length + 1 = pvk.vk.gamma_abc_g1.fst.length)
    (hl : pvk.vk.link_pp.l = link_d.length + 1)
    (hc : link_d.length + 1 ≤ pvk.vk.link_vk.c.length)
    (hfin : B.finalExp (B.multiMillerLoop
      [pf.a, pf.d + msm pvk.vk.gamma_abc_g1.fst ((1 : F) :: public_inputs), pf.c]
      [pf.b, pvk.gamma_g2_neg_pc, pvk.delta_g2_neg_pc]) = some t) :
    ∃ b, verify_proof B pvk pf link_d public_inputs = some (.ok b) ∧
      (b = true ↔
        (t = pvk.alpha_g1_beta_g2 ∧
          B.multiPairing (link_d ++ [pf.d] ++ [pf.link_pi])
            (pvk.vk.link_vk.c.take (link_d.length + 1) ++ [-pvk.vk.link_vk.a])
            = 0)) := by
  have hshape : pvk.vk.link_pp.l = (link_d ++ [pf.d]).length ∧
      (link_d ++ [pf.d]).length ≤ pvk.vk.link_vk.c.length := by
    simp only [List.length_append, List.length_cons, List.length_nil]
    exact ⟨hl, hc⟩
  unfold verify_proof prepare_inputs verify_proof_with_prepared_inputs
  rw [if_neg (by simp only [List.length_cons]; omega)]
  dsimp only
  rw [hfin]
  dsimp only
  by_cases ht : t = pvk.alpha_g1_beta_g2
  · rw [if_pos ht]
    unfold PESubspaceSnark.verify
    rw [if_pos hshape]
    refine ⟨_, rfl, ?_⟩
    rw [decide_eq_true_iff]
    simp only [List.length_append, List.length_cons, List.length_nil]
    exact ⟨fun h => ⟨ht, h⟩, fun h => h.2⟩
  · rw [if_neg ht]
    exact ⟨false, rfl, by simp [ht]⟩

/-- C4: link-SNARK `keygen`, run with the sampled trapdoor vector `k` (one
scalar per row) and blinding scalar `a`, returns `EK.p[i] = Σ_rows
M[row,i]·k[row]` for every column `i`, `VK.c[row] = (a·k[row])·g2`, and
`VK.a = a·g2`; the output contains no component depending on `k` other than
these. -/
theorem c4_keygen_characterization (k : List F) (a : F) (pp : PP G1 G2)
    (m : SparseMatrix G1) (hk : k.length = pp.l)
    (hrows : ∀ col ∈ m.cols, ∀ e ∈ col, e.2 < pp.l) :
    ∃ ek vk, PESubspaceSnark.keygen k a pp m = some (ek, vk) ∧
      ek.p = m.cols.map (columnAtTrapdoor k) ∧
      vk.c = k.map (fun ki => (a * ki) • pp.g2) ∧
      vk.a = a • pp.g2 := by
  have hmult := sparse_vector_matrix_mult_eq_some k m (by rw [hk]; exact hrows)
  refine ⟨⟨m.cols.map (columnAtTrapdoor k)⟩,
    ⟨multiples_of_g pp.g2 (scale_vector a k), a • pp.g2⟩, ?_, rfl, ?_, rfl⟩
  · unfold PESubspaceSnark.keygen
    rw [hmult]
    rfl
  · unfold multiples_of_g scale_vector
    rw [List.map_map]
    rfl

/-- C5 (amended): `verify_proof` returns `Err(MalformedVerifyingKey)` when
`1 + public_inputs.length` differs from the length of the `gamma_abc`
instance part; with matching lengths, a link target of the shape the link
verifier accepts, and a Miller loop whose final exponentiation succeeds, it
returns `Ok(true)` or `Ok(false)` — but when final exponentiation fails it
returns `Err(UnexpectedIdentity)` even for correctly-sized inputs. -/
theorem c5_error_contract (B : Backend G1 G2 GT ML)
    (pvk : PreparedVerifyingKey G1 G2 GT) (pf : Proof G1 G2) (link_d : List G1)
    (public_inputs : List F) :
    (public_inputs.length + 1 ≠ pvk.vk.gamma_abc_g1.fst.length →
      verify_proof B pvk pf link_d public_inputs =
        some (.error .MalformedVerifyingKey))
    ∧ (public_inputs.length + 1 = pvk.vk.gamma_abc_g1.fst.length →
       pvk.vk.link_pp.l = link_d.length + 1 →
       link_d.length + 1 ≤ pvk.vk.link_vk.c.length →
       ∀ t, B.finalExp (B.multiMillerLoop
           [pf.a, pf.d + msm pvk.vk.gamma_abc_g1.fst ((1 : F) :: public_inputs), pf.c]
           [pf.b, pvk.gamma_g2_neg_pc, pvk.delta_g2_neg_pc]) = some t →
         ∃ b, verify_proof B pvk pf link_d public_inputs = some (.ok b)) := by
  constructor
  · intro hne
    unfold verify_proof prepare_inputs
    rw [if_pos (by simp only [List.length_cons]; omega)]
  · intro hlen hl hc t hfin
    have hshape : pvk.vk.link_pp.l = (link_d ++ [pf.d]).length ∧
        (link_d ++ [pf.d]).length ≤ pvk.vk.link_vk.c.length := by
      simp only [List.length_append, List.length_cons, List.length_nil]
      exact ⟨hl, hc⟩
    unfold verify_proof prepare_inputs verify_proof_with_prepared_inputs
    rw [if_neg (by simp only [List.length_cons]; omega)]
    dsimp only
    rw [hfin]
    dsimp only
    by_cases ht : t = pvk.alpha_g1_beta_g2
    · rw [if_pos ht]
      unfold PESubspaceSnark.verify
      rw [if_pos hshape]
      exact ⟨_, rfl⟩
    · rw [if_neg ht]
      exact ⟨false, rfl⟩

/-- C5, counterexample to the claim as stated: with correctly-sized public
inputs (so `prepare_inputs` accepts) and a back-end whose final
exponentiation fails, `verify_proof` returns `Err(UnexpectedIdentity)` — an
error that is not a malformed-key/inputs condition. -/
theorem c5_counterexample :
    List.length ((1 : Z5) :: []) = pvk5.vk.gamma_abc_g1.fst.length ∧
    verify_proof stuckExpBackend pvk5 pf5 [] ([] : List Z5) =
      some (.error .UnexpectedIdentity) := by
  constructor
  · decide
  · decide

/-- Witness for C1 at the concrete `Z5` instantiation. -/
theorem c1_witness :
    ∃ b, verify_proof testBackend pvk5 pf5 [] ([] : List Z5) = some (.ok b) ∧
      (b = true ↔
        ((2 : Z5) = pvk5.alpha_g1_beta_g2 ∧
          testBackend.multiPairing ([] ++ [pf5.d] ++ [pf5.link_pi])
            (pvk5.vk.link_vk.c.take (List.length ([] : List Z5) + 1) ++
              [-pvk5.vk.link_vk.a]) = 0)) :=
  c1_verify_proof_characterization testBackend pvk5 pf5 [] [] 2 (by decide)
    (by decide) (by decide) (by decide)

/-- Witness for C2 at the concrete `Z5` instantiation. -/
theorem c2_witness :
    (Proof.mk 3 3 0 0 0 : Proof Z5 Z5).c =
        (1 : Z5) • (Proof.mk 3 3 0 0 0 : Proof Z5 Z5).a +
        ((1 : Z5) • (3 : Z5) : Z5) - ((1 : Z5) * 1) • pk5.common.delta_g1 +
        msm pk5.common.l_query ([] : List Z5) +
        msm pk5.common.h_query ([] : List Z5) -
        (0 : Z5) • pk5.common.eta_delta_inv_g1
      ∧ (Proof.mk 3 3 0 0 0 : Proof Z5 Z5).d =
          msm pk5.vk.gamma_abc_g1.snd ([] : List Z5) +
            (0 : Z5) • pk5.vk.eta_gamma_inv_g1
      ∧ PESubspaceSnark.prove pk5.vk.link_pp pk5.common.link_ek
          ([] ++ [] ++ [(0 : Z5)]) =
          some (Proof.mk 3 3 0 0 0 : Proof Z5 Z5).link_pi :=
  c2_proof_components (F := Z5) pk5 1 1 0 [] [] [] [] [] ⟨3, 3, 0, 0, 0⟩ 3
    (by decide) (by decide)

/-- Witness for C3 at the concrete `Z5` instantiation. -/
theorem c3_witness :
    ∃ b, PESubspaceSnark.verify testBackend (⟨1, 2, 1, 1⟩ : PP Z5 Z5)
        (⟨[1], 1⟩ : VK Z5) [2] 3 = some b ∧
      (b = true ↔
        testBackend.multiPairing ([2] ++ [3])
          ((⟨[1], 1⟩ : VK Z5).c.take (List.length [(2 : Z5)]) ++
            [-(⟨[1], 1⟩ : VK Z5).a]) = 0) :=
  c3_link_verify_boolean testBackend ⟨1, 2, 1, 1⟩ ⟨[1], 1⟩ [2] 3 (by decide)
    (by decide)

/-- Witness for C4 at the concrete `Z5` instantiation. -/
theorem c4_witness :
    ∃ ek vk, PESubspaceSnark.keygen [(1 : Z5), 2] (3 : Z5) pp52 m5 = some (ek, vk) ∧
      ek.p = m5.cols.map (columnAtTrapdoor [(1 : Z5), 2]) ∧
      vk.c = [(1 : Z5), 2].map (fun ki => ((3 : Z5) * ki) • pp52.g2) ∧
      vk.a = (3 : Z5) • pp52.g2 :=
  c4_keygen_characterization [(1 : Z5), 2] (3 : Z5) pp52 m5 (by decide) (by decide)

/-- Witness for the amended C5 at the concrete `Z5` instantiation: both the
malformed-length branch and the well-formed branch are exercised. -/
theorem c5_witness :
    verify_proof testBackend pvk5 pf5 [] [(1 : Z5), 1] =
      some (.error .MalformedVerifyingKey) ∧
    ∃ b, verify_proof testBackend pvk5 pf5 [] ([] : List Z5) = some (.ok b) :=
  ⟨(c5_error_contract testBackend pvk5 pf5 [] [1, 1]).1 (by decide),
   (c5_error_contract testBackend pvk5 pf5 [] []).2 (by decide) (by decide)
     (by decide) 2 (by decide)⟩

/-- C7: under the well-formedness conditions of key generation (nonzero
`gamma` and `delta`, enough wire evaluations, Pedersen base sizes summing to
the committed count, one link trapdoor per link row), the generated key's
`gamma_abc` instance part has length `num_instance_variables`, its committed
part has length `num_committed_variables`, and every entry is
`(β·aᵢ + α·bᵢ + cᵢ)·γ⁻¹` scaled onto the `G1` generator. -/
theorem c7_gamma_abc_shape (qap : QapOracle F)
    (num_instance_variables num_committed_variables : Nat)
    (pedersen_gens : List (List G1 × G1)) (alpha beta gamma delta eta : F)
    (g1_generator : G1) (g2_generator : G2) (link_g1_sample : G1)
    (link_g2_sample : G2) (k_sample : List F) (a_sample : F)
    (hγ : gamma ≠ 0) (hδ : delta ≠ 0)
    (ha : num_instance_variables + num_committed_variables ≤ qap.a.length)
    (hb : num_instance_variables + num_committed_variables ≤ qap.b.length)
    (hc : num_instance_variables + num_committed_variables ≤ qap.c.length)
    (hsum : (pedersen_gens.map fun x => x.1.length).sum = num_committed_variables)
    (hk : k_sample.length = 1 + pedersen_gens.length) :
    ∃ pk, generate_parameters_with_qap qap num_instance_variables
        num_committed_variables pedersen_gens alpha beta gamma delta eta
        g1_generator g2_generator link_g1_sample link_g2_sample k_sample a_sample =
        some (.ok pk) ∧
      pk.vk.gamma_abc_g1.fst.length = num_instance_variables ∧
      pk.vk.gamma_abc_g1.snd.length = num_committed_variables ∧
      ∀ i, i < num_instance_variables + num_committed_variables →
        (pk.vk.gamma_abc_g1.fst ++ pk.vk.gamma_abc_g1.snd)[i]? =
          some (((beta * qap.a.getD i 0 + alpha * qap.b.getD i 0 +
            qap.c.getD i 0) * gamma⁻¹) • g1_generator) := by
  obtain ⟨pk, hgen, habc, hpp, hvk⟩ := generate_parameters_success qap
    num_instance_variables num_committed_variables pedersen_gens alpha beta gamma
    delta eta g1_generator g2_generator link_g1_sample link_g2_sample k_sample
    a_sample hγ hδ ha hb hc hsum hk
  have hfull : ((((((qap.a.take
      (num_instance_variables + num_committed_variables)).zip
      (qap.b.take (num_instance_variables + num_committed_variables))).zip
      (qap.c.take (num_instance_variables + num_committed_variables))).map
      fun x => (beta * x.1.1 + alpha * x.1.2 + x.2) * gamma⁻¹).map
      fun x => x • g1_generator)).length =
      num_instance_variables + num_committed_variables := by
    simp only [List.length_map, List.length_zip, List.length_take]
    omega
  refine ⟨pk, hgen, ?_, ?_, ?_⟩
  · rw [habc]
    simp only [List.length_take, hfull]
    omega
  · rw [habc]
    simp only [List.length_drop, hfull]
    omega
  · intro i hi
    rw [habc]
    show ((_ : List G1).take num_instance_variables ++
      (_ : List G1).drop num_instance_variables)[i]? = _
    rw [List.take_append_drop]
    have hia : i < qap.a.length := lt_of_lt_of_le hi ha
    have hib : i < qap.b.length := lt_of_lt_of_le hi hb
    have hic : i < qap.c.length := lt_of_lt_of_le hi hc
    have hta : (qap.a.take
        (num_instance_variables + num_committed_variables))[i]? =
        some (qap.a.getD i 0) := by
      rw [List.getElem?_take, if_pos hi, List.getElem?_eq_getElem hia,
        List.getD_eq_getElem?_getD, List.getElem?_eq_getElem hia]
      rfl
    have htb : (qap.b.take
        (num_instance_variables + num_committed_variables))[i]? =
        some (qap.b.getD i 0) := by
      rw [List.getElem?_take, if_pos hi, List.getElem?_eq_getElem hib,
        List.getD_eq_getElem?_getD, List.getElem?_eq_getElem hib]
      rfl
    have htc : (qap.c.take
        (num_instance_variables + num_committed_variables))[i]? =
        some (qap.c.getD i 0) := by
      rw [List.getElem?_take, if_pos hi, List.getElem?_eq_getElem hic,
        List.getD_eq_getElem?_getD, List.getElem?_eq_getElem hic]
      rfl
    simp only [List.getElem?_map, getElem?_zip_eq, hta, htb, htc,
      Option.some_bind, Option.map_some']

/-- C10: key generation requires the total number of Pedersen base elements
to equal the circuit's committed-variable count: under that precondition the
assertion is unreachable and setup returns a key whose link matrix has
`1 + #base groups` rows and `#committed + #rows` columns; when it is
violated, setup fails fast (the assertion panic) instead of returning a
key. -/
theorem c10_pedersen_bases_contract (qap : QapOracle F)
    (num_instance_variables num_committed_variables : Nat)
    (pedersen_gens : List (List G1 × G1)) (alpha beta gamma delta eta : F)
    (g1_generator : G1) (g2_generator : G2) (link_g1_sample : G1)
    (link_g2_sample : G2) (k_sample : List F) (a_sample : F)
    (hγ : gamma ≠ 0) (hδ : delta ≠ 0)
    (ha : num_instance_variables + num_committed_variables ≤ qap.a.length)
    (hb : num_instance_variables + num_committed_variables ≤ qap.b.length)
    (hc : num_instance_variables + num_committed_variables ≤ qap.c.length)
    (hk : k_sample.length = 1 + pedersen_gens.length) :
    ((pedersen_gens.map fun x => x.1.length).sum = num_committed_variables →
      ∃ pk, generate_parameters_with_qap qap num_instance_variables
          num_committed_variables pedersen_gens alpha beta gamma delta eta
          g1_generator g2_generator link_g1_sample link_g2_sample k_sample
          a_sample = some (.ok pk) ∧
        pk.vk.link_pp.l = 1 + pedersen_gens.length ∧
        pk.vk.link_pp.t = num_committed_variables + pk.vk.link_pp.l)
    ∧ ((pedersen_gens.map fun x => x.1.length).sum ≠ num_committed_variables →
      generate_parameters_with_qap qap num_instance_variables
          num_committed_variables pedersen_gens alpha beta gamma delta eta
          g1_generator g2_generator link_g1_sample link_g2_sample k_sample
          a_sample = none) := by
  constructor
  · intro hsum
    obtain ⟨pk, hgen, habc, hpp, hvk⟩ := generate_parameters_success qap
      num_instance_variables num_committed_variables pedersen_gens alpha beta
      gamma delta eta g1_generator g2_generator link_g1_sample link_g2_sample
      k_sample a_sample hγ hδ ha hb hc hsum hk
    exact ⟨pk, hgen, by rw [hpp], by rw [hpp]⟩
  · intro hsum
    unfold generate_parameters_with_qap
    rw [if_neg hγ, if_neg hδ, if_pos ⟨ha, hb, hc⟩]
    dsimp only
    rw [if_neg hsum]

/-- C6, counterexample to the claim as stated: two runs of key generation
with identical trapdoor scalars (`α=β=γ=δ=η=1`) and identical group
generators, differing only in the link-SNARK trapdoor scalar drawn from the
randomness source (`[1]` vs `[2]`), produce different keys — the generated
keys are not a function of the five trapdoors and the two generators
alone. -/
theorem c6_counterexample :
    generate_parameters_with_qap qap5 1 0 ([] : List (List Z5 × Z5)) (1 : Z5) 1 1
        1 1 (1 : Z5) (1 : Z5) 1 1 [1] 1 ≠
      generate_parameters_with_qap qap5 1 0 ([] : List (List Z5 × Z5)) (1 : Z5) 1
        1 1 1 (1 : Z5) (1 : Z5) 1 1 [2] 1 := by
  obtain ⟨pk1, hg1, _, _, hv1⟩ := generate_parameters_success qap5 1 0
    ([] : List (List Z5 × Z5)) (1 : Z5) 1 1 1 1 (1 : Z5) (1 : Z5) 1 1 [1] 1
    (by decide) (by decide) (by decide) (by decide) (by decide) (by decide)
    (by decide)
  obtain ⟨pk2, hg2, _, _, hv2⟩ := generate_parameters_success qap5 1 0
    ([] : List (List Z5 × Z5)) (1 : Z5) 1 1 1 1 (1 : Z5) (1 : Z5) 1 1 [2] 1
    (by decide) (by decide) (by decide) (by decide) (by decide) (by decide)
    (by decide)
  intro hEq
  rw [hg1, hg2] at hEq
  injection hEq with h1
  injection h1 with h2
  rw [h2, hv2] at hv1
  exact absurd (congrArg VK.c hv1) (by decide)

/-- C6 (amended): the generated proving/verifying key is a deterministic
function of the trapdoor scalars, the group generators, the QAP oracle
output, the Pedersen bases, AND the remaining values drawn from the
randomness source (the two link-SNARK generators, the link trapdoor vector
and the link blinding scalar): two runs agreeing on all of these produce
identical keys. -/
theorem c6_determinism (qap qap' : QapOracle F)
    (ninst ninst' ncomm ncomm' : Nat)
    (pedersen_gens pedersen_gens' : List (List G1 × G1))
    (alpha alpha' beta beta' gamma gamma' delta delta' eta eta' : F)
    (g1_generator g1_generator' : G1) (g2_generator g2_generator' : G2)
    (link_g1_sample link_g1_sample' : G1) (link_g2_sample link_g2_sample' : G2)
    (k_sample k_sample' : List F) (a_sample a_sample' : F)
    (h : (qap, ninst, ncomm, pedersen_gens, alpha, beta, gamma, delta, eta,
        g1_generator, g2_generator, link_g1_sample, link_g2_sample, k_sample,
        a_sample) =
      (qap', ninst', ncomm', pedersen_gens', alpha', beta', gamma', delta', eta',
        g1_generator', g2_generator', link_g1_sample', link_g2_sample',
        k_sample', a_sample')) :
    generate_parameters_with_qap qap ninst ncomm pedersen_gens alpha beta gamma
        delta eta g1_generator g2_generator link_g1_sample link_g2_sample
        k_sample a_sample =
      generate_parameters_with_qap qap' ninst' ncomm' pedersen_gens' alpha' beta'
        gamma' delta' eta' g1_generator' g2_generator' link_g1_sample'
        link_g2_sample' k_sample' a_sample' := by
  simp only [Prod.mk.injEq] at h
  obtain ⟨rfl, rfl, rfl, rfl, rfl, rfl, rfl, rfl, rfl, rfl, rfl, rfl, rfl, rfl,
    rfl⟩ := h
  rfl

/-- Witness for C7 at the concrete `Z5` instantiation. -/
theorem c7_witness :
    ∃ pk, generate_parameters_with_qap qap5 1 0 ([] : List (List Z5 × Z5))
        (1 : Z5) 1 1 1 1 (1 : Z5) (1 : Z5) 1 1 [1] 1 = some (.ok pk) ∧
      pk.vk.gamma_abc_g1.fst.length = 1 ∧
      pk.vk.gamma_abc_g1.snd.length = 0 ∧
      ∀ i, i < 1 + 0 →
        (pk.vk.gamma_abc_g1.fst ++ pk.vk.gamma_abc_g1.snd)[i]? =
          some ((((1 : Z5) * qap5.a.getD i 0 + (1 : Z5) * qap5.b.getD i 0 +
            qap5.c.getD i 0) * (1 : Z5)⁻¹) • (1 : Z5)) :=
  c7_gamma_abc_shape qap5 1 0 ([] : List (List Z5 × Z5)) (1 : Z5) 1 1 1 1
    (1 : Z5) (1 : Z5) 1 1 [1] 1 (by decide) (by decide) (by decide) (by decide)
    (by decide) (by decide) (by decide)

/-- Witness for C10 at the concrete `Z5` instantiation: the matching-sizes
branch produces a key of the stated link shape, and a mismatched-size run
fails fast. -/
theorem c10_witness :
    (∃ pk, generate_parameters_with_qap qap5 1 0 ([] : List (List Z5 × Z5))
        (1 : Z5) 1 1 1 1 (1 : Z5) (1 : Z5) 1 1 [1] 1 = some (.ok pk) ∧
      pk.vk.link_pp.l = 1 + 0 ∧ pk.vk.link_pp.t = 0 + pk.vk.link_pp.l) ∧
    generate_parameters_with_qap qap5 1 0 [([(1 : Z5)], (1 : Z5))] (1 : Z5) 1 1 1
        1 (1 : Z5) (1 : Z5) 1 1 [1, 1] 1 = none :=
  ⟨((c10_pedersen_bases_contract qap5 1 0 ([] : List (List Z5 × Z5)) (1 : Z5) 1 1
      1 1 (1 : Z5) (1 : Z5) 1 1 [1] 1 (by decide) (by decide) (by decide)
      (by decide) (by decide) (by decide)).1 (by decide)),
   ((c10_pedersen_bases_contract qap5 1 0 [([(1 : Z5)], (1 : Z5))] (1 : Z5) 1 1 1
      1 (1 : Z5) (1 : Z5) 1 1 [1, 1] 1 (by decide) (by decide) (by decide)
      (by decide) (by decide) (by decide)).2 (by decide))⟩

/-- Witness for the amended C6: two runs agreeing on every input produce the
same key. -/
theorem c6_witness :
    generate_parameters_with_qap qap5 1 0 ([] : List (List Z5 × Z5)) (1 : Z5) 1 1
        1 1 (1 : Z5) (1 : Z5) 1 1 [1] 1 =
      generate_parameters_with_qap qap5 1 0 ([] : List (List Z5 × Z5)) (1 : Z5) 1
        1 1 1 (1 : Z5) (1 : Z5) 1 1 [1] 1 :=
  c6_determinism qap5 qap5 1 1 0 0 ([] : List (List Z5 × Z5))
    ([] : List (List Z5 × Z5)) (1 : Z5) 1 1 1 1 1 1 1 1 1 (1 : Z5) (1 : Z5)
    (1 : Z5) (1 : Z5) (1 : Z5) (1 : Z5) (1 : Z5) (1 : Z5) [1] [1] 1 1 rfl

/-- Witness for C8 at the concrete `Z5` instantiation. -/
theorem c8_witness :
    create_proof_with_assignment pk5 (0 : Z5) 1 0 [] [] [] [] [] =
      create_proof_with_assignment_fullB pk5 (0 : Z5) 1 0 [] [] [] [] [] :=
  c8_zero_r_performance_path pk5 (0 : Z5) 1 0 [] [] [] [] [] rfl (by decide)

end Claims

end Groth16
